import Mathlib

/-!
Verification of the rowguard RLS-policy DSL core: the condition tree, the
SQL escaping/rendering layer, the table-reference validator, the subquery
builder and the policy builder, embedded shallowly from the TypeScript
source (src/sql.ts, src/column.ts, src/context.ts, src/validation.ts,
src/subquery-builder.ts).
-/

namespace Rowguard

/-- The double-quote character. -/
def dquote : Char := Char.ofNat 34

/-- The single-quote character. -/
def squote : Char := Char.ofNat 39

/-- A character matching the safe-identifier class `[a-zA-Z0-9_]`. -/
def isSafeChar (c : Char) : Bool := c.isAlpha || c.isDigit || c == '_'

/-- Double every occurrence of the character `q` in a character list
(the `replace(/q/g, 'qq')` step of the source's escaping). -/
def doubleOcc (q : Char) : List Char → List Char
  | [] => []
  | c :: cs => if c == q then q :: q :: doubleOcc q cs else c :: doubleOcc q cs

/-- `escapeIdentifier` from src/sql.ts: if the identifier contains any
character outside `[a-zA-Z0-9_]` it is wrapped in double quotes with
embedded double quotes doubled; otherwise it is returned unchanged. -/
def escapeIdentifier (identifier : String) : String :=
  if identifier.data.any (fun c => !(isSafeChar c)) then
    String.mk (dquote :: doubleOcc dquote identifier.data ++ [dquote])
  else identifier

/-- Session-variable cast types from src/types.ts. -/
inductive SessionVariableType where
  | text
  | integer
  | uuid
  | boolean
  | timestamp
  deriving DecidableEq, Repr

/-- The type-cast suffix chosen in `session.get` (src/context.ts). -/
def sessionTypeCast : SessionVariableType → String
  | .integer => "::INTEGER"
  | .uuid => "::UUID"
  | .boolean => "::BOOLEAN"
  | .timestamp => "::TIMESTAMP"
  | .text => ""

/-- The context-leaf variants from src/context.ts: `auth.uid()`,
`session.get(key, type)` and `currentUser()`. -/
inductive ContextType where
  | authUid
  | session (key : String) (sessionType : SessionVariableType)
  | currentUser
  deriving DecidableEq, Repr

/-- Rendering of a context leaf (the `toSQL` closures in src/context.ts).
`session.get` interpolates the key directly between single quotes. -/
def ContextType.toSQL : ContextType → String
  | .authUid => "auth.uid()"
  | .session key t => "current_setting('" ++ key ++ "', true)"
      ++ sessionTypeCast t
  | .currentUser => "current_user"

/-- Comparison operators of `createComparison` (src/sql.ts). -/
inductive CompOp where
  | eq | neq | gt | gte | lt | lte
  deriving DecidableEq, Repr

/-- The `operatorMap` of `createComparison`. -/
def comparisonOperatorSQL : CompOp → String
  | .eq => "="
  | .neq => "!="
  | .gt => ">"
  | .gte => ">="
  | .lt => "<"
  | .lte => "<="

/-- Pattern-match operators of the column builder. -/
inductive PatOp where
  | like | ilike
  deriving DecidableEq, Repr

def patternOperatorSQL : PatOp → String
  | .like => "LIKE"
  | .ilike => "ILIKE"

/-- Logical combination operators. -/
inductive LogicOp where
  | AND | OR
  deriving DecidableEq, Repr

def logicOperatorSQL : LogicOp → String
  | .AND => "AND"
  | .OR => "OR"

/-- Join kinds of the subquery builder. -/
inductive JoinType where
  | inner | left | right | full
  deriving DecidableEq, Repr

def joinTypeSQL : JoinType → String
  | .inner => "INNER"
  | .left => "LEFT"
  | .right => "RIGHT"
  | .full => "FULL"

/-- The select column(s) of a subquery: a single column name or a list. -/
inductive SelectCols where
  | single (column : String)
  | multi (columns : List String)
  deriving DecidableEq, Repr

mutual

/-- The value shapes accepted by `escapeValue` (src/sql.ts): null, boolean,
number, Date (carried by its ISO-8601 rendering), a raw `SQLExpression`,
an array, a string, or a nested condition object. -/
inductive SqlValue where
  | vNull
  | vBool (b : Bool)
  | vNum (n : Int)
  | vDate (iso : String)
  | vSql (expression : String)
  | vArr (items : List SqlValue)
  | vStr (s : String)
  | vCond (c : Condition)

/-- The condition-tree variants built by src/column.ts, src/sql.ts and
src/context.ts: comparisons, patterns, membership (literal list, subquery
or `@>`), null checks, logical nodes, the helper leaves, function calls
and context leaves. -/
inductive Condition where
  | comparison (column : String) (operator : CompOp) (value : SqlValue)
  | pattern (column : String) (operator : PatOp) (pat : String)
  | membershipList (column : String) (values : List SqlValue)
  | membershipSubquery (column : String) (sub : Subquery)
  | membershipContains (column : String) (value : SqlValue)
  | nullCheck (column : String) (isNot : Bool)
  | logical (operator : LogicOp) (conditions : List Condition)
  | helperIsMemberOf (joinTable foreignKey localKey : String)
  | helperHasRole (role userRolesTable : String)
  | helperAlwaysTrue
  | functionCall (functionName : String) (args : List FnArg)
  | context (ctx : ContextType)

/-- An argument of `call(fn, args)`: a string treated as a column
reference, or a nested condition. -/
inductive FnArg where
  | colRef (name : String)
  | cond (c : Condition)

/-- `SubqueryDefinition` (src/types.ts): from-table, optional alias,
select columns, optional single join, optional where condition. -/
inductive Subquery where
  | mk (fromTable : String) (tableAlias : Option String) (select : SelectCols)
      (join : Option JoinDef) (whereCond : Option Condition)

/-- The join stored in a `SubqueryDefinition`. -/
inductive JoinDef where
  | mk (table : String) (tableAlias : Option String) (onCond : Condition)
      (jtype : JoinType)

end

def Subquery.fromTable : Subquery → String
  | .mk f _ _ _ _ => f

def Subquery.tableAlias : Subquery → Option String
  | .mk _ a _ _ _ => a

def Subquery.select : Subquery → SelectCols
  | .mk _ _ s _ _ => s

def Subquery.join : Subquery → Option JoinDef
  | .mk _ _ _ j _ => j

def Subquery.whereCond : Subquery → Option Condition
  | .mk _ _ _ _ w => w

def JoinDef.table : JoinDef → String
  | .mk t _ _ _ => t

def JoinDef.tableAlias : JoinDef → Option String
  | .mk _ a _ _ => a

def JoinDef.onCond : JoinDef → Condition
  | .mk _ _ o _ => o

def JoinDef.jtype : JoinDef → JoinType
  | .mk _ _ _ j => j

/-- JavaScript `a || d` on an optional string: an absent or empty string
falls back to the default. -/
def jsOr (a : Option String) (d : String) : String :=
  match a with
  | some s => if s == "" then d else s
  | none => d

/-- A single-quoted SQL string literal with embedded quotes doubled
(the string branch of `escapeValue`). -/
def quoteStringLiteral (s : String) : String :=
  String.mk (squote :: doubleOcc squote s.data ++ [squote])

mutual

/-- `escapeValue` from src/sql.ts: type-directed literal formatting.
Total — every value shape maps to a string, none throws. -/
def escapeValue : SqlValue → String
  | .vNull => "NULL"
  | .vBool b => if b then "TRUE" else "FALSE"
  | .vNum n => toString n
  | .vDate iso => "'" ++ iso ++ "'::TIMESTAMP"
  | .vSql expression => expression
  | .vArr items => "ARRAY[" ++ String.intercalate ", " (escapeValueList items) ++ "]"
  | .vStr s => quoteStringLiteral s
  | .vCond c => condToSQL c

def escapeValueList : List SqlValue → List String
  | [] => []
  | v :: vs => escapeValue v :: escapeValueList vs

/-- The `toSQL` closures of the condition variants (src/sql.ts and
src/column.ts). -/
def condToSQL : Condition → String
  | .comparison column operator value =>
      escapeIdentifier column ++ " " ++ comparisonOperatorSQL operator ++ " "
        ++ escapeValue value
  | .pattern column operator pat =>
      escapeIdentifier column ++ " " ++ patternOperatorSQL operator ++ " "
        ++ quoteStringLiteral pat
  | .membershipList column values =>
      escapeIdentifier column ++ " IN ("
        ++ String.intercalate ", " (escapeValueList values) ++ ")"
  | .membershipSubquery column sub =>
      escapeIdentifier column ++ " IN " ++ subqueryToSQL sub
  | .membershipContains column value =>
      escapeIdentifier column ++ " @> " ++ escapeValue value
  | .nullCheck column isNot =>
      escapeIdentifier column ++ (if isNot then " IS NOT NULL" else " IS NULL")
  | .logical operator conditions =>
      "(" ++ String.intercalate (" " ++ logicOperatorSQL operator ++ " ")
        (condListToSQL conditions) ++ ")"
  | .helperIsMemberOf joinTable foreignKey localKey =>
      escapeIdentifier localKey ++ " IN (\n          SELECT "
        ++ escapeIdentifier foreignKey ++ "\n          FROM "
        ++ escapeIdentifier joinTable ++ "\n          WHERE "
        ++ escapeIdentifier "user_id" ++ " = " ++ ContextType.authUid.toSQL
        ++ "\n        )"
  | .helperHasRole role userRolesTable =>
      "EXISTS (\n        SELECT 1\n        FROM "
        ++ escapeIdentifier userRolesTable ++ "\n        WHERE "
        ++ escapeIdentifier "user_id" ++ " = " ++ ContextType.authUid.toSQL
        ++ "\n        AND " ++ escapeIdentifier "role" ++ " = "
        ++ quoteStringLiteral role ++ "\n      )"
  | .helperAlwaysTrue => "true"
  | .functionCall functionName args =>
      escapeIdentifier functionName ++ "("
        ++ String.intercalate ", " (argListToSQL args) ++ ")"
  | .context ctx => ctx.toSQL

def condListToSQL : List Condition → List String
  | [] => []
  | c :: cs => condToSQL c :: condListToSQL cs

def argListToSQL : List FnArg → List String
  | [] => []
  | .colRef name :: rest => escapeIdentifier name :: argListToSQL rest
  | .cond c :: rest => condToSQL c :: argListToSQL rest

/-- `subqueryToSQL` from src/sql.ts. -/
def subqueryToSQL : Subquery → String
  | .mk fromTable tableAlias select join whereCond =>
      let fromSQL := escapeIdentifier fromTable
      let aliasSQL := match tableAlias with
        | some a => if a == "" then "" else " " ++ escapeIdentifier a
        | none => ""
      let selectSQL := match select with
        | .single c => escapeIdentifier c
        | .multi cs => String.intercalate ", " (cs.map escapeIdentifier)
      let joinSQL := match join with
        | some (.mk jt ja onCond jk) =>
            " " ++ joinTypeSQL jk ++ " JOIN " ++ escapeIdentifier jt
              ++ (match ja with
                  | some a => if a == "" then "" else " " ++ escapeIdentifier a
                  | none => "")
              ++ " ON " ++ condToSQL onCond
        | none => ""
      let whereSQL := match whereCond with
        | some w => " WHERE " ++ condToSQL w
        | none => ""
      "(SELECT " ++ selectSQL ++ " FROM " ++ fromSQL ++ aliasSQL
        ++ joinSQL ++ whereSQL ++ ")"

end

/-- The splice step of `ConditionChain.flattenConditions` (src/column.ts):
a `logical` node carrying the same operator contributes its children,
any other condition contributes itself. -/
def spliceIf (c : Condition) (operator : LogicOp) : List Condition :=
  match c with
  | .logical op cs => if op == operator then cs else [c]
  | _ => [c]

/-- `ConditionChain.flattenConditions` (src/column.ts): left content first,
then right content. -/
def flattenConditions (left right : Condition) (operator : LogicOp) :
    List Condition :=
  spliceIf left operator ++ spliceIf right operator

/-- `ConditionChain.chainWith` (src/column.ts): wraps the flattened
children into one logical node. -/
def chainWith (c other : Condition) (operator : LogicOp) : Condition :=
  .logical operator (flattenConditions c other operator)

/-- `ConditionChain.and`. -/
def Condition.and (c other : Condition) : Condition := chainWith c other .AND

/-- `ConditionChain.or`. -/
def Condition.or (c other : Condition) : Condition := chainWith c other .OR

/-- The `column(name)` entry point (src/column.ts). -/
structure ColumnBuilder where
  columnName : String

def column (columnName : String) : ColumnBuilder := ⟨columnName⟩

/-- `ColumnBuilder.eq` via `createComparison` (src/column.ts, src/sql.ts). -/
def ColumnBuilder.eq (b : ColumnBuilder) (value : SqlValue) : Condition :=
  .comparison b.columnName .eq value

/-- `ColumnBuilder.in` with a literal value list (src/column.ts);
`in` is reserved in Lean. -/
def ColumnBuilder.inList (b : ColumnBuilder) (values : List SqlValue) :
    Condition :=
  .membershipList b.columnName values

/-- Split a character list at the first occurrence of `q`: the prefix
before it and the suffix after it. -/
def splitAtChar (q : Char) : List Char → Option (List Char × List Char)
  | [] => none
  | c :: cs =>
      if c == q then some ([], cs)
      else (splitAtChar q cs).map (fun p => (c :: p.1, p.2))

/-- `extractTableFromColumn` (src/validation.ts): the content of a leading
double-quoted segment immediately followed by `.`, or else the prefix
before the first `.` when non-empty; `none` when there is no qualifier.
When the quoted form is malformed the source falls through to the plain
`indexOf('.')` scan over the whole string. -/
def extractTableFromColumn (columnRef : String) : Option String :=
  let cs := columnRef.data
  let quoted : Option String :=
    match cs with
    | c :: rest =>
        if c == dquote then
          match splitAtChar dquote rest with
          | some (pre, post) =>
              match post with
              | d :: _ => if d == '.' then some (String.mk pre) else none
              | [] => none
          | none => none
        else none
    | [] => none
  match quoted with
  | some t => some t
  | none =>
      match splitAtChar '.' cs with
      | some (pre, _) => if pre.isEmpty then none else some (String.mk pre)
      | none => none

/-- Insertion into the collected reference list; the JS `Set` iterates in
insertion order, modelled as a deduplicated first-seen-ordered list. -/
def insertRef (tables : List String) (t : String) : List String :=
  if tables.contains t then tables else tables ++ [t]

/-- Collect the table qualifier of one column reference, if any. -/
def addColumnRef (tables : List String) (columnRef : String) : List String :=
  match extractTableFromColumn columnRef with
  | some t => insertRef tables t
  | none => tables

mutual

/-- The `traverse` walk of `extractTableReferences` (src/validation.ts):
columns of comparison/pattern/null/membership nodes, condition-valued
comparison values, children of logical nodes, string params of helper
nodes and string or condition arguments of function nodes. -/
def extractRefs : Condition → List String → List String
  | .comparison column _ value, tables =>
      let tables := addColumnRef tables column
      match value with
      | .vCond c => extractRefs c tables
      | _ => tables
  | .pattern column _ _, tables => addColumnRef tables column
  | .membershipList column _, tables => addColumnRef tables column
  | .membershipSubquery column _, tables => addColumnRef tables column
  | .membershipContains column _, tables => addColumnRef tables column
  | .nullCheck column _, tables => addColumnRef tables column
  | .logical _ conditions, tables => extractRefsList conditions tables
  | .helperIsMemberOf joinTable foreignKey localKey, tables =>
      addColumnRef (addColumnRef (addColumnRef tables joinTable) foreignKey)
        localKey
  | .helperHasRole role userRolesTable, tables =>
      addColumnRef (addColumnRef tables role) userRolesTable
  | .helperAlwaysTrue, tables => tables
  | .functionCall _ args, tables => extractRefsArgs args tables
  | .context _, tables => tables

def extractRefsList : List Condition → List String → List String
  | [], tables => tables
  | c :: cs, tables => extractRefsList cs (extractRefs c tables)

def extractRefsArgs : List FnArg → List String → List String
  | [], tables => tables
  | .colRef s :: rest, tables => extractRefsArgs rest (addColumnRef tables s)
  | .cond c :: rest, tables => extractRefsArgs rest (extractRefs c tables)

end

/-- `extractTableReferences` (src/validation.ts). -/
def extractTableReferences (condition : Condition) : List String :=
  extractRefs condition []

/-- `getAvailableTables` (src/validation.ts): the from-scope's alias (or
table) plus each join's alias (or table). -/
def getAvailableTables (fromTable : String) (fromAlias : Option String)
    (joins : List (String × Option String)) : List String :=
  joins.foldl (fun tables j => insertRef tables (jsOr j.2 j.1))
    (insertRef [] (jsOr fromAlias fromTable))

/-- `detectMissingJoins` (src/validation.ts): referenced minus available,
order-preserving. -/
def detectMissingJoins (condition : Condition)
    (availableTables : List String) : List String :=
  (extractTableReferences condition).filter
    (fun t => !(availableTables.contains t))

/-- `validateTableReferences` (src/subquery-builder.ts): throws on
references to unavailable tables; `allowedMissing` exempts the table a
join itself introduces. -/
def validateTableReferences (condition : Condition) (fromTable : String)
    (fromAlias : Option String) (joins : List (String × Option String))
    (allowedMissing : Option String) : Except String Unit :=
  let availableTables := getAvailableTables fromTable fromAlias joins
  let missing := detectMissingJoins condition availableTables
  let filteredMissing := match allowedMissing with
    | some a => missing.filter (fun t => t != a)
    | none => missing
  match filteredMissing with
  | [] => .ok ()
  | f :: rest =>
      match allowedMissing with
      | some _ => .error ("Join condition references unavailable table(s): "
          ++ String.intercalate ", " (f :: rest))
      | none => .error ("Missing join(s) for table(s): "
          ++ String.intercalate ", " (f :: rest)
          ++ ". Add a join using .join('" ++ f
          ++ "', ...) before calling .where()")

/-- The `SubqueryBuilder` state (src/subquery-builder.ts): from-table,
optional alias, select columns (initially `*`), optional where condition
and the accumulated join list. -/
structure SubqueryBuilder where
  fromTable : String
  fromAlias : Option String
  select : SelectCols
  whereCond : Option Condition
  joins : List JoinDef

/-- `from(table, alias?)` (src/subquery-builder.ts); `from` is reserved in
Lean. -/
def subqueryFrom (table : String) (tableAlias : Option String) :
    SubqueryBuilder :=
  { fromTable := table, fromAlias := tableAlias, select := .single "*",
    whereCond := none, joins := [] }

/-- The `(table, alias)` pairs of the accumulated joins, as passed to
`getAvailableTables`. -/
def SubqueryBuilder.joinPairs (b : SubqueryBuilder) :
    List (String × Option String) :=
  b.joins.map (fun j => (j.table, j.tableAlias))

/-- `SubqueryBuilder.where`: validates the condition against the from
scope plus declared joins, then attaches it; `where` is reserved in
Lean. On a validation failure the builder state is unchanged (the source
throws before assigning). -/
def SubqueryBuilder.whereClause (b : SubqueryBuilder) (condition : Condition) :
    Except String SubqueryBuilder :=
  match validateTableReferences condition b.fromTable b.fromAlias
      b.joinPairs none with
  | .error e => .error e
  | .ok _ => .ok { b with whereCond := some condition }

/-- `SubqueryBuilder.join`: validates the ON-clause against the tables
available before this join (the joined table itself exempted via
`allowedMissing`) and appends the join to the list. The source never
rejects a call because a join is already present. -/
def SubqueryBuilder.join (b : SubqueryBuilder) (table : String)
    (onCond : Condition) (jtype : Option JoinType)
    (tableAlias : Option String) : Except String SubqueryBuilder :=
  match validateTableReferences onCond b.fromTable b.fromAlias b.joinPairs
      (some (jsOr tableAlias table)) with
  | .error e => .error e
  | .ok _ => .ok { b with joins :=
      b.joins ++ [JoinDef.mk table tableAlias onCond (jtype.getD .inner)] }

/-- `SubqueryBuilder.toSubquery`: only the first accumulated join is kept
("For now, only support single join" in the source). -/
def SubqueryBuilder.toSubquery (b : SubqueryBuilder) : Subquery :=
  .mk b.fromTable b.fromAlias b.select b.joins.head? b.whereCond

/-- Policy operations. -/
inductive PolicyOperation where
  | SELECT | INSERT | UPDATE | DELETE | ALL
  deriving DecidableEq, Repr

def policyOperationSQL : PolicyOperation → String
  | .SELECT => "SELECT"
  | .INSERT => "INSERT"
  | .UPDATE => "UPDATE"
  | .DELETE => "DELETE"
  | .ALL => "ALL"

/-- Modelled from the spec: the policy-builder state (src/policy-builder.ts
is not present under src/). Per spec §3/§4.5 a policy carries name, target
table, operation, optional role, optional USING and WITH CHECK conditions,
a restrictive flag (default permissive) and an optional description. -/
structure PolicyBuilder where
  name : String
  table : String
  operation : PolicyOperation
  role : Option String
  usingCond : Option Condition
  withCheckCond : Option Condition
  restrictive : Bool
  descriptionText : Option String

/-- Modelled from the spec: the state reached by
`createPolicy(name).on(table).for(operation)` — no role, no predicates,
permissive, no description. -/
def createPolicyFor (name table : String) (operation : PolicyOperation) :
    PolicyBuilder :=
  { name := name, table := table, operation := operation, role := none,
    usingCond := none, withCheckCond := none, restrictive := false,
    descriptionText := none }

/-- Modelled from the spec: `when(cond)` sets the USING condition. -/
def PolicyBuilder.when (p : PolicyBuilder) (cond : Condition) : PolicyBuilder :=
  { p with usingCond := some cond }

/-- Modelled from the spec: `withCheck(cond)` sets the WITH CHECK
condition. -/
def PolicyBuilder.withCheck (p : PolicyBuilder) (cond : Condition) :
    PolicyBuilder :=
  { p with withCheckCond := some cond }

/-- Modelled from the spec §4.5: `allow(cond)` derives clause placement
from the operation — INSERT sets WITH CHECK only; SELECT and DELETE set
USING only; UPDATE and ALL set both to the same condition. -/
def PolicyBuilder.allow (p : PolicyBuilder) (cond : Condition) : PolicyBuilder :=
  match p.operation with
  | .INSERT => { p with withCheckCond := some cond }
  | .SELECT => { p with usingCond := some cond }
  | .DELETE => { p with usingCond := some cond }
  | .UPDATE => { p with usingCond := some cond, withCheckCond := some cond }
  | .ALL => { p with usingCond := some cond, withCheckCond := some cond }

/-- Modelled from the spec §4.5: `toSQL()` renders
`CREATE POLICY "<name>" ON "<table>"[ AS RESTRICTIVE] FOR <OPERATION>
[ TO <role>][ USING (<using>)][ WITH CHECK (<check>)]`, omitting any
clause never set, and fails when neither USING nor WITH CHECK was ever
set. -/
def PolicyBuilder.toSQL (p : PolicyBuilder) : Except String String :=
  match p.usingCond, p.withCheckCond with
  | none, none => .error "Policy must have at least one of USING or WITH CHECK"
  | _, _ => .ok ("CREATE POLICY \"" ++ p.name ++ "\" ON \"" ++ p.table ++ "\""
      ++ (if p.restrictive then " AS RESTRICTIVE" else "")
      ++ " FOR " ++ policyOperationSQL p.operation
      ++ (match p.role with | some r => " TO " ++ r | none => "")
      ++ (match p.usingCond with
          | some u => " USING (" ++ condToSQL u ++ ")"
          | none => "")
      ++ (match p.withCheckCond with
          | some w => " WITH CHECK (" ++ condToSQL w ++ ")"
          | none => ""))

/-- Whether a condition is a `logical` node carrying the given operator
(the guard of `flattenConditions`). -/
def isLogicalNode (c : Condition) (operator : LogicOp) : Bool :=
  match c with
  | .logical op _ => op == operator
  | _ => false

/-- Whether every double quote in a character list occurs as an
immediately adjacent pair (the body of a well-formed quoted identifier). -/
def quotesDoubled : List Char → Bool
  | [] => true
  | c :: cs =>
      if c == dquote then
        match cs with
        | [] => false
        | c2 :: cs2 => c2 == dquote && quotesDoubled cs2
      else quotesDoubled cs

/-- Stated from the spec's words for comparison with `escapeIdentifier`:
a single well-formed SQL identifier token is either a non-empty unquoted
name of safe characters, or a double-quoted segment whose embedded double
quotes are doubled. -/
def specWellFormedIdentifierToken (s : String) : Bool :=
  (!(s.data.isEmpty) && s.data.all isSafeChar)
  || (match s.data with
      | c :: rest =>
          c == dquote && !(rest.isEmpty)
            && rest.getLast? == some dquote && quotesDoubled rest.dropLast
      | [] => false)

/-- Example ON-condition referencing the joined table `a`. -/
def exOnA : Condition := (column "a.x").eq (.vNum 1)

/-- Example ON-condition referencing the joined table `b`. -/
def exOnB : Condition := (column "b.y").eq (.vNum 2)

/-- The builder state after `from('t').join('a', exOnA)`. -/
def exBuilderOneJoin : SubqueryBuilder :=
  { fromTable := "t", fromAlias := none, select := .single "*",
    whereCond := none, joins := [JoinDef.mk "a" none exOnA .inner] }

/-- The builder state after a further `.join('b', exOnB)`. -/
def exBuilderTwoJoins : SubqueryBuilder :=
  { fromTable := "t", fromAlias := none, select := .single "*",
    whereCond := none,
    joins := [JoinDef.mk "a" none exOnA .inner, JoinDef.mk "b" none exOnB .inner] }

/-- Atomic example conditions for the logical-chaining claims. -/
def exAtomP : Condition := .nullCheck "p" false

def exAtomQ : Condition := .nullCheck "q" false

def exAtomB : Condition := .nullCheck "b" false

def exAtomC : Condition := .nullCheck "c" false

theorem escapeValueList_eq_map (l : List SqlValue) :
    escapeValueList l = l.map escapeValue := by
  induction l with
  | nil => rfl
  | cons v vs ih => simp [escapeValueList, ih]

/-- C1: the session-variable context leaf does not escape its key — the
key `a'b` is embedded verbatim between single quotes, not as the
single-quoted literal with doubled quotes that the escaping layer
(`escapeValue`'s string branch) would produce. -/
theorem C1_session_key_embedded_unescaped :
    ContextType.toSQL (.session "a'b" .text) = "current_setting('a'b', true)"
    ∧ quoteStringLiteral "a'b" = "'a''b'"
    ∧ ContextType.toSQL (.session "a'b" .text)
        ≠ "current_setting(" ++ quoteStringLiteral "a'b" ++ ", true)" := by
  refine ⟨rfl, by decide, by decide⟩

/-- C6 counterexample: `column('user_id').eq(currentAuthId())` renders with
the column identifier unquoted — `user_id = auth.uid()` — because
`escapeIdentifier` returns a name matching `[A-Za-z0-9_]+` unchanged, so
the rendering is not the double-quoted form the claim states. -/
theorem C6_counterexample :
    condToSQL ((column "user_id").eq (.vCond (.context .authUid)))
      = "user_id = auth.uid()"
    ∧ condToSQL ((column "user_id").eq (.vCond (.context .authUid)))
      ≠ "\"user_id\" = auth.uid()" := by
  refine ⟨rfl, by decide⟩

/-- C6 (amended): `column('user_id').eq(currentAuthId())` renders exactly
`user_id = auth.uid()` — the safe column name passes through unquoted and
the auth-context leaf renders as `auth.uid()`. -/
theorem C6_renders_unquoted :
    condToSQL ((column "user_id").eq (.vCond (.context .authUid)))
      = "user_id = auth.uid()" := rfl

/-- C7: `escapeValue` maps null to `NULL`, booleans to `TRUE`/`FALSE`,
numbers to their decimal text, a timestamp to an ISO-8601 literal cast to
`TIMESTAMP`, a sequence to a recursively escaped `ARRAY[...]` literal, and
a string to a single-quoted literal with embedded quotes doubled; in
particular the list `["a'b", 1, null]` renders `ARRAY['a''b', 1, NULL]`.
The function is total over every value shape, so it never throws. -/
theorem C7_escapeValue_formats :
    escapeValue .vNull = "NULL"
    ∧ escapeValue (.vBool true) = "TRUE"
    ∧ escapeValue (.vBool false) = "FALSE"
    ∧ (∀ n : Int, escapeValue (.vNum n) = toString n)
    ∧ (∀ iso : String, escapeValue (.vDate iso) = "'" ++ iso ++ "'::TIMESTAMP")
    ∧ (∀ items : List SqlValue, escapeValue (.vArr items)
        = "ARRAY[" ++ String.intercalate ", " (items.map escapeValue) ++ "]")
    ∧ (∀ s : String, escapeValue (.vStr s)
        = String.mk (squote :: doubleOcc squote s.data ++ [squote]))
    ∧ escapeValue (.vArr [.vStr "a'b", .vNum 1, .vNull]) = "ARRAY['a''b', 1, NULL]" := by
  refine ⟨rfl, rfl, rfl, fun n => rfl, fun iso => rfl, fun items => ?_,
    fun s => rfl, by decide⟩
  simp [escapeValue, escapeValueList_eq_map]

/-- C10: `column(c).in([])` is accepted (the builder performs no
validation) and renders the escaped identifier followed by ` IN ()` with
an empty parenthesized list. -/
theorem C10_in_empty_list (colName : String) :
    condToSQL ((column colName).inList [])
      = escapeIdentifier colName ++ " IN ()" := by
  show escapeIdentifier colName ++ " IN ("
      ++ String.intercalate ", " (escapeValueList []) ++ ")"
      = escapeIdentifier colName ++ " IN ()"
  rw [show String.intercalate ", " (escapeValueList []) = "" from rfl,
    String.append_empty, String.append_assoc]
  exact congrArg (escapeIdentifier colName ++ ·) (by decide)

theorem spliceIf_of_not_logical (c : Condition) (operator : LogicOp)
    (h : isLogicalNode c operator = false) : spliceIf c operator = [c] := by
  cases c <;> simp_all [isLogicalNode, spliceIf]

/-- C3 counterexample: when the left operand A is itself a logical AND
node (children P, Q), the chain `A.and(B).and(C)` splices A's children,
yielding the four children P, Q, B, C — not the three children A, B, C the
claim states for arbitrary conditions. -/
theorem C3_counterexample :
    ((Condition.logical .AND [exAtomP, exAtomQ]).and exAtomB).and exAtomC
      = Condition.logical .AND [exAtomP, exAtomQ, exAtomB, exAtomC]
    ∧ ((Condition.logical .AND [exAtomP, exAtomQ]).and exAtomB).and exAtomC
      ≠ Condition.logical .AND
          [Condition.logical .AND [exAtomP, exAtomQ], exAtomB, exAtomC] := by
  refine ⟨rfl, ?_⟩
  rw [show ((Condition.logical .AND [exAtomP, exAtomQ]).and exAtomB).and exAtomC
      = Condition.logical .AND [exAtomP, exAtomQ, exAtomB, exAtomC] from rfl]
  intro h
  have h2 := congrArg (fun c => match c with
    | Condition.logical _ cs => cs.length
    | _ => 0) h
  simp at h2

/-- C3 (amended): for any three conditions none of which is itself a
logical AND node, `A.and(B).and(C)` yields one logical AND node with the
three ordered children A, B, C; and in general `and`/`or` on a logical
node of the same operator splices its children in place, appending the
other side's content after them. -/
theorem C3_and_chain_flattening :
    (∀ A B C : Condition, isLogicalNode A .AND = false →
      isLogicalNode B .AND = false → isLogicalNode C .AND = false →
      (A.and B).and C = Condition.logical .AND [A, B, C])
    ∧ (∀ (operator : LogicOp) (ls : List Condition) (r : Condition),
      chainWith (.logical operator ls) r operator
        = Condition.logical operator (ls ++ spliceIf r operator)) := by
  constructor
  · intro A B C hA hB hC
    have h1 : A.and B = Condition.logical .AND [A, B] := by
      unfold Condition.and chainWith flattenConditions
      rw [spliceIf_of_not_logical A .AND hA, spliceIf_of_not_logical B .AND hB]
      rfl
    rw [show (A.and B).and C = chainWith (A.and B) C .AND from rfl, h1]
    unfold chainWith flattenConditions
    rw [spliceIf_of_not_logical C .AND hC]
    simp [spliceIf]
  · intro operator ls r
    unfold chainWith flattenConditions
    simp [spliceIf]

/-- C3 witness: the amended flattening statement at three atomic
conditions. -/
theorem C3_witness :
    (exAtomP.and exAtomB).and exAtomC
      = Condition.logical .AND [exAtomP, exAtomB, exAtomC] :=
  C3_and_chain_flattening.1 exAtomP exAtomB exAtomC rfl rfl rfl

theorem quotesDoubled_doubleOcc (l : List Char) :
    quotesDoubled (doubleOcc dquote l) = true := by
  induction l with
  | nil => rfl
  | cons c cs ih =>
      by_cases h : c = dquote
      · subst h
        simp [doubleOcc, quotesDoubled, ih]
      · have hb : (c == dquote) = false := by simpa using h
        rw [doubleOcc, if_neg (by simp [hb]), quotesDoubled.eq_def]
        simp only [hb]
        simp [ih]

/-- C8 counterexample: the empty string contains no character outside the
safe class, so `escapeIdentifier` returns it unchanged — and the empty
string is not a well-formed identifier token (neither a non-empty safe
name nor a double-quoted segment), contradicting the claim's "for every
input string — including the empty string". -/
theorem C8_counterexample :
    escapeIdentifier "" = ""
    ∧ specWellFormedIdentifierToken (escapeIdentifier "") = false := by
  decide

/-- C8 (amended): `escapeIdentifier` returns any all-safe name unchanged
(hence is idempotent on `[A-Za-z0-9_]+` names), and for every non-empty
input its result is a single well-formed identifier token — a non-empty
unquoted safe name or a double-quoted segment with embedded double quotes
doubled. The empty string alone passes through as an empty (non-)token. -/
theorem C8_escapeIdentifier_wellformed :
    (∀ s : String, s.data.all isSafeChar = true →
      escapeIdentifier s = s
      ∧ escapeIdentifier (escapeIdentifier s) = escapeIdentifier s)
    ∧ (∀ s : String, s.data ≠ [] →
      specWellFormedIdentifierToken (escapeIdentifier s) = true) := by
  constructor
  · intro s hs
    have hfalse : s.data.any (fun c => !(isSafeChar c)) = false := by
      rw [List.any_eq_false]
      intro c hc
      simp [List.all_eq_true.mp hs c hc]
    have h1 : escapeIdentifier s = s := by
      unfold escapeIdentifier
      rw [hfalse]
      simp
    exact ⟨h1, by rw [h1, h1]⟩
  · intro s hs
    unfold escapeIdentifier
    by_cases h : s.data.any (fun c => !(isSafeChar c)) = true
    · rw [h]
      simp only [if_true]
      unfold specWellFormedIdentifierToken
      simp [List.getLast?_concat, List.dropLast_concat, quotesDoubled_doubleOcc]
    · have hfalse : s.data.any (fun c => !(isSafeChar c)) = false := by
        simpa using h
      rw [hfalse]
      simp only [Bool.false_eq_true, if_false]
      have hall : s.data.all isSafeChar = true := by
        rw [List.all_eq_true]
        intro c hc
        have := List.any_eq_false.mp hfalse c hc
        simpa using this
      unfold specWellFormedIdentifierToken
      simp [hall, hs]

/-- C8 witness: the amended statement at a safe name and at a name that
needs quoting. -/
theorem C8_witness :
    escapeIdentifier "user_id" = "user_id"
    ∧ specWellFormedIdentifierToken (escapeIdentifier "a\"b c") = true :=
  ⟨(C8_escapeIdentifier_wellformed.1 "user_id" (by decide)).1,
   C8_escapeIdentifier_wellformed.2 "a\"b c" (by decide)⟩

/-- C2 counterexample: with one join already declared, a second `join`
call succeeds — it returns the updated builder rather than a structural
error — and `toSubquery` of the two-join builder keeps only the first
join, silently dropping the second. -/
theorem C2_counterexample :
    exBuilderOneJoin.join "b" exOnB none none = .ok exBuilderTwoJoins
    ∧ exBuilderTwoJoins.toSubquery.join
        = some (JoinDef.mk "a" none exOnA .inner) := by
  exact ⟨rfl, rfl⟩

/-- C2 (amended): a second `join` call is not rejected — whenever its
ON-clause passes scope validation the call succeeds and the join is
appended to the builder's internal list, while `toSubquery` keeps only the
first join, so the `SubqueryDefinition` never holds more than one join and
a second join is silently dropped from it. -/
theorem C2_second_join_silently_dropped
    (b : SubqueryBuilder) (table : String) (onCond : Condition)
    (jtype : Option JoinType) (tableAlias : Option String)
    (b2 : SubqueryBuilder)
    (h : b.join table onCond jtype tableAlias = .ok b2) :
    b2.joins = b.joins
      ++ [JoinDef.mk table tableAlias onCond (jtype.getD .inner)]
    ∧ (b.joins ≠ [] → b2.toSubquery.join = b.joins.head?) := by
  unfold SubqueryBuilder.join at h
  cases hv : validateTableReferences onCond b.fromTable b.fromAlias
      b.joinPairs (some (jsOr tableAlias table)) with
  | error e =>
      rw [hv] at h
      exact absurd h (by simp)
  | ok u =>
      rw [hv] at h
      injection h with h2
      subst h2
      refine ⟨rfl, fun hne => ?_⟩
      cases hj : b.joins with
      | nil => exact absurd hj hne
      | cons j js => simp [SubqueryBuilder.toSubquery, hj, Subquery.join]

/-- C2 witness: the amended statement at the concrete two-join scenario. -/
theorem C2_witness :
    exBuilderTwoJoins.joins
      = exBuilderOneJoin.joins ++ [JoinDef.mk "b" none exOnB .inner]
    ∧ exBuilderTwoJoins.toSubquery.join = exBuilderOneJoin.joins.head? := by
  have h := C2_second_join_silently_dropped exBuilderOneJoin "b" exOnB
      none none exBuilderTwoJoins rfl
  exact ⟨h.1, h.2 (by simp [exBuilderOneJoin])⟩

/-- C4: `allow(cond)` after `for(op)` sets exactly the operation-derived
predicate slots — INSERT sets WITH CHECK only (and the rendering carries
no USING clause), SELECT and DELETE set USING only, UPDATE and ALL set
both to the same condition. -/
theorem C4_allow_clause_placement :
    (∀ (name table : String) (cond : Condition),
      ((createPolicyFor name table .INSERT).allow cond).usingCond = none
      ∧ ((createPolicyFor name table .INSERT).allow cond).withCheckCond = some cond
      ∧ ((createPolicyFor name table .SELECT).allow cond).usingCond = some cond
      ∧ ((createPolicyFor name table .SELECT).allow cond).withCheckCond = none
      ∧ ((createPolicyFor name table .DELETE).allow cond).usingCond = some cond
      ∧ ((createPolicyFor name table .DELETE).allow cond).withCheckCond = none
      ∧ ((createPolicyFor name table .UPDATE).allow cond).usingCond = some cond
      ∧ ((createPolicyFor name table .UPDATE).allow cond).withCheckCond = some cond
      ∧ ((createPolicyFor name table .ALL).allow cond).usingCond = some cond
      ∧ ((createPolicyFor name table .ALL).allow cond).withCheckCond = some cond)
    ∧ ((createPolicyFor "p" "t" .INSERT).allow .helperAlwaysTrue).toSQL
        = .ok "CREATE POLICY \"p\" ON \"t\" FOR INSERT WITH CHECK (true)" := by
  exact ⟨fun name table cond =>
    ⟨rfl, rfl, rfl, rfl, rfl, rfl, rfl, rfl, rfl, rfl⟩, rfl⟩

/-- C5: a policy on which none of `when`, `allow` or `withCheck` was ever
called has neither USING nor WITH CHECK set, and `toSQL` fails with a
synchronous structural error instead of rendering predicate-less policy
text. -/
theorem C5_predicateless_policy_fails (p : PolicyBuilder)
    (hu : p.usingCond = none) (hw : p.withCheckCond = none) :
    p.toSQL = .error "Policy must have at least one of USING or WITH CHECK" := by
  unfold PolicyBuilder.toSQL
  rw [hu, hw]

/-- C5 witness: the freshly built policy `createPolicy.on.for` with no
predicate fails to render. -/
theorem C5_witness :
    (createPolicyFor "p" "documents" .SELECT).toSQL
      = .error "Policy must have at least one of USING or WITH CHECK" :=
  C5_predicateless_policy_fails (createPolicyFor "p" "documents" .SELECT) rfl rfl

/-- C9: on a from-only builder, attaching a WHERE condition that
references qualifiers other than the from table fails synchronously with
a scope error naming every missing table (in first-seen order) and
suggesting the `.join` call for the first one; no builder with the clause
attached is produced. -/
theorem C9_where_scope_error (t : String) (c : Condition)
    (f : String) (rest : List String)
    (h : detectMissingJoins c (getAvailableTables t none []) = f :: rest) :
    (subqueryFrom t none).whereClause c
      = .error ("Missing join(s) for table(s): "
        ++ String.intercalate ", " (f :: rest)
        ++ ". Add a join using .join('" ++ f
        ++ "', ...) before calling .where()") := by
  have hv : validateTableReferences c t none [] none
      = .error ("Missing join(s) for table(s): "
        ++ String.intercalate ", " (f :: rest)
        ++ ". Add a join using .join('" ++ f
        ++ "', ...) before calling .where()") := by
    unfold validateTableReferences
    simp only [h]
  simp only [SubqueryBuilder.whereClause, subqueryFrom,
    SubqueryBuilder.joinPairs, List.map, hv]

/-- C9 witness: the scope error at the concrete example
`from('t').where(column('m.col').eq(1))`. -/
theorem C9_witness :
    (subqueryFrom "t" none).whereClause ((column "m.col").eq (.vNum 1))
      = .error "Missing join(s) for table(s): m. Add a join using .join('m', ...) before calling .where()" :=
  C9_where_scope_error "t" ((column "m.col").eq (.vNum 1)) "m" [] (by decide)

end Rowguard
